import Mathlib

/-!
Shallow embedding of the gadmin repository (src/gadmin.py, src/addUsers.py,
src/utils.py): scripts that batch-administer Google Analytics user links and
Google Tag Manager tags.  Remote calls are modelled by explicit oracles,
Python dictionaries by ordered association lists, and the datetimes produced
by `datetime.strptime(s, "%d%m%Y")` by civil dates at UTC midnight.  All
millisecond/second values computed by the code are whole numbers far below
2^53, where Python's float arithmetic is exact, so they are modelled by
integers.
-/

namespace Gadmin

/-! ## Python values and dictionaries -/

/-- JSON-ish Python values appearing in request bodies and responses.
Whole-number floats (the only ones the code produces) are carried as
integers; values the scripts never inspect (nested lists, dicts, ...) are
abstracted by an `other` tag. -/
inductive PyVal where
  | num : Int → PyVal
  | str : String → PyVal
  | other : Nat → PyVal
deriving DecidableEq

abbrev Dict := List (String × PyVal)

/-- Python dict assignment `d[k] = v`: replaces the value at an existing
key, keeping insertion order, and appends a new binding otherwise. -/
def dictSet (d : Dict) (k : String) (v : PyVal) : Dict :=
  match d with
  | [] => [(k, v)]
  | (k', v') :: rest => if k' = k then (k, v) :: rest else (k', v') :: dictSet rest k v

/-- Python dict lookup `d.get(k)`. -/
def dictGet (d : Dict) (k : String) : Option PyVal :=
  match d with
  | [] => none
  | (k', v') :: rest => if k' = k then some v' else dictGet rest k

/-! ## Calendar model: datetime.strptime with format "%d%m%Y", and
unix_time_millis (src/gadmin.py:328-330) -/

/-- Gregorian leap-year rule used by Python's datetime. -/
def isLeapYear (y : Nat) : Prop := (y % 4 = 0 ∧ y % 100 ≠ 0) ∨ y % 400 = 0

instance (y : Nat) : Decidable (isLeapYear y) := by
  unfold isLeapYear; exact inferInstance

def leapDay (y : Nat) : Nat := if isLeapYear y then 1 else 0

def daysInMonth (y m : Nat) : Nat :=
  match m with
  | 1 => 31
  | 2 => 28 + leapDay y
  | 3 => 31
  | 4 => 30
  | 5 => 31
  | 6 => 30
  | 7 => 31
  | 8 => 31
  | 9 => 30
  | 10 => 31
  | 11 => 30
  | 12 => 31
  | _ => 0

/-- Days of year `y` that precede the first day of month `m`. -/
def daysBeforeMonth (y m : Nat) : Nat :=
  match m with
  | 1 => 0
  | 2 => 31
  | 3 => 59 + leapDay y
  | 4 => 90 + leapDay y
  | 5 => 120 + leapDay y
  | 6 => 151 + leapDay y
  | 7 => 181 + leapDay y
  | 8 => 212 + leapDay y
  | 9 => 243 + leapDay y
  | 10 => 273 + leapDay y
  | 11 => 304 + leapDay y
  | 12 => 334 + leapDay y
  | _ => 0

/-- Leap years among 1, ..., y-1 (proleptic Gregorian). -/
def leapYearsBefore (y : Nat) : Nat := (y - 1) / 4 - (y - 1) / 100 + (y - 1) / 400

/-- A civil date; strptime("%d%m%Y") produces the midnight datetime of such
a date. -/
structure Date where
  day : Nat
  month : Nat
  year : Nat
deriving DecidableEq

/-- The checks datetime performs when strptime builds the date: month and
day in range for the (possibly leap) year, year within MINYEAR..MAXYEAR. -/
def ValidDate (d : Date) : Prop :=
  1 ≤ d.day ∧ d.day ≤ daysInMonth d.year d.month ∧ 1 ≤ d.month ∧ d.month ≤ 12 ∧
    1 ≤ d.year ∧ d.year ≤ 9999

instance (d : Date) : Decidable (ValidDate d) := by
  unfold ValidDate; exact inferInstance

/-- Days from 0001-01-01 (day 0) to the given date, proleptic Gregorian. -/
def rataDie (d : Date) : Nat :=
  365 * (d.year - 1) + leapYearsBefore d.year + daysBeforeMonth d.year d.month + (d.day - 1)

/-- `(dt - datetime.utcfromtimestamp(0)).days` for the midnight datetime of
the date. -/
def daysSinceEpoch (d : Date) : Int := (rataDie d : Int) - (rataDie ⟨1, 1, 1970⟩ : Int)

/-- `(dt - epoch).total_seconds()`: the timedelta between two midnights is a
whole number of days, so the float total_seconds returns is exactly the
integer modelled here (|value| < 2^53 for years 1..9999). -/
def totalSeconds (d : Date) : Int := daysSinceEpoch d * 86400

/-- unix_time_millis (src/gadmin.py:328-330):
`(dt - epoch).total_seconds() * 1000.0`; exact in floating point over the
representable year range, modelled as an integer count of milliseconds. -/
def unix_time_millis (d : Date) : Int := totalSeconds d * 1000

def digitVal (c : Char) : Nat := c.toNat - 48

/-- `datetime.strptime(s, "%d%m%Y")` on a DDMMYYYY string: two day digits,
two month digits, four year digits; ValueError (modelled by `none`) when the
string is not 8 digits or the fields do not form a real calendar date. -/
def parseDDMMYYYY (s : String) : Option Date :=
  match s.toList with
  | [d1, d2, m1, m2, y1, y2, y3, y4] =>
    if d1.isDigit && d2.isDigit && m1.isDigit && m2.isDigit &&
        y1.isDigit && y2.isDigit && y3.isDigit && y4.isDigit then
      let dt : Date := ⟨10 * digitVal d1 + digitVal d2, 10 * digitVal m1 + digitVal m2,
        1000 * digitVal y1 + 100 * digitVal y2 + 10 * digitVal y3 + digitVal y4⟩
      if ValidDate dt then some dt else none
    else none
  | _ => none

/-- Chronological order on civil dates (lexicographic year, month, day). -/
def dateBefore (a b : Date) : Prop :=
  a.year < b.year ∨
    (a.year = b.year ∧ (a.month < b.month ∨ (a.month = b.month ∧ a.day < b.day)))

instance (a b : Date) : Decidable (dateBefore a b) := by
  unfold dateBefore; exact inferInstance

/-! ## Remote requests and call outcomes -/

/-- The remote operations the scripts enqueue into HTTP batches. -/
inductive Request where
  | deleteProfileUserLink (accountId webPropertyId profileId linkId : String)
  | insertProfileUserLink (accountId webPropertyId profileId email : String)
      (permissions : List String)
  | createTag (parent : String) (body : Dict)
  | deleteTag (path : String)
deriving DecidableEq

/-- Outcome of one googleapiclient remote call: a parsed response, a
TypeError raised while constructing the query, or an HttpError carrying
resp.status and resp.reason. -/
inductive CallResult (α : Type) where
  | ok : α → CallResult α
  | typeError : String → CallResult α
  | httpError : Nat → String → CallResult α

/-- The line printed by every `except TypeError` branch in src/gadmin.py. -/
def queryErrorMsg (e : String) : String :=
  "There was an error in constructing your query : " ++ e

/-- The line printed by every `except HttpError` branch in src/gadmin.py. -/
def apiErrorMsg (status : Nat) (reason : String) : String :=
  "There was an API error : " ++ toString status ++ " : " ++ reason

/-! ## Analytics data model (accounts, properties, views, user links) -/

structure UserRef where
  email : String
deriving DecidableEq

structure UserLink where
  id : String
  userRef : UserRef
deriving DecidableEq

structure ProfileSummary where
  id : String
deriving DecidableEq

structure WebPropertySummary where
  id : String
  profiles : List ProfileSummary
deriving DecidableEq

structure AccountSummary where
  id : String
  webProperties : List WebPropertySummary
deriving DecidableEq

/-- The remote Analytics service as batch_delete_users consults it:
accountSummaries().list(), profileUserLinks().list(accountId,
webPropertyId, profileId), and the per-request outcome of executed batched
deletes (exception or response). -/
structure AnalyticsEnv where
  accountSummaries : List AccountSummary
  profileUserLinks : String → String → String → List UserLink
  respond : Request → Except String String

/-- The delete requests one view contributes inside the worker loop
(src/gadmin.py:107-133): list the view's user links, keep the ids of links
whose userRef email equals the target user, and build one delete request
per kept link. -/
def viewDeleteRequests (env : AnalyticsEnv) (user account_id property_id : String)
    (view : ProfileSummary) : List Request :=
  (((env.profileUserLinks account_id property_id view.id).filter
      (fun x => x.userRef.email == user)).map (fun x => x.id)).map
    (fun link => Request.deleteProfileUserLink account_id property_id view.id link)

/-- Worker body delete_user_from_property (src/gadmin.py:104-133).  Each
worker runs as a separate multiprocessing.Process; `batch` is the copy of
the parent's batch object the child received at fork, and the returned
value is that copy after the child's batch.add calls.  It exists only in
the child's address space. -/
def delete_user_from_property (env : AnalyticsEnv) (user : String)
    (property : WebPropertySummary) (account_id : String)
    (batch : List Request) : List Request :=
  property.profiles.foldl
    (fun b view => b ++ viewDeleteRequests env user account_id property.id view) batch

/-- Callback handle_delete_user (src/gadmin.py:135-139): one printed line
per batched request outcome. -/
def handle_delete_user (requestId : String) (response : Option String)
    (exception : Option String) : String :=
  match exception with
  | some e => "There was an error: " ++ e
  | none => "Request ID: " ++ requestId ++ ", Deleted user: " ++ response.getD "None"

/-- BatchHttpRequest.execute: with no queued requests it returns without
performing any HTTP call (a no-op, not an error); otherwise one HTTP batch
round trip happens and the callback runs once per queued request (request
ids are assigned "1", "2", ... in add order; callback order is not
guaranteed, only the multiset of lines matters to any claim). -/
def executeBatch (env : AnalyticsEnv) (requests : List Request) : Bool × List String :=
  match requests with
  | [] => (false, [])
  | _ =>
    (true, requests.enum.map (fun p =>
      match env.respond p.2 with
      | .ok r => handle_delete_user (toString (p.1 + 1)) (some r) none
      | .error e => handle_delete_user (toString (p.1 + 1)) none (some e)))

/-- The join loop (src/gadmin.py:162-163): the parent waits for each child
process to exit.  A multiprocessing.Process shares no memory with its
parent, so the children's copies of the batch are discarded here and the
parent's own batch object comes back unchanged. -/
def joinProcesses (parentBatch : List Request) (_childBatches : List (List Request)) :
    List Request :=
  parentBatch

/-- Observable outcome of one (account, user) iteration of
batch_delete_users: the account and user of the pair, the final content of
each worker's copy of the batch, the content of the batch the parent
executes, whether executing it performed an HTTP call, and the callback's
printed lines. -/
structure PairRun where
  accountId : String
  user : String
  workerBatches : List (List Request)
  executedBatch : List Request
  httpCalled : Bool
  callbackLog : List String
deriving DecidableEq

/-- Body of the `for user in users` loop (src/gadmin.py:150-164): create
one fresh batch for the (account, user) pair, fork one worker per web
property (each worker receiving a copy of the still-empty batch), join
them all, then execute the parent's batch once. -/
def runPair (env : AnalyticsEnv) (account : AccountSummary) (user : String) : PairRun :=
  let workers := account.webProperties.map (fun property_summary =>
    delete_user_from_property env user property_summary account.id [])
  let batch := joinProcesses [] workers
  let ex := executeBatch env batch
  ⟨account.id, user, workers, batch, ex.1, ex.2⟩

/-- batch_delete_users (src/gadmin.py:97-166): loop over every account of
the account-summaries listing, and over every requested user within it.
The accountId and views parameters of the signature are never read. -/
def batch_delete_users (env : AnalyticsEnv) (accountId : String) (users : List String)
    (views : Option (List String)) : List PairRun :=
  (env.accountSummaries.map (fun account =>
    users.map (fun user => runPair env account user))).flatten

/-! ## Single-entity Analytics operations -/

/-- list_account_users (src/gadmin.py:46-69): returns the printed lines and
the returned value (none on either handled error). -/
def list_account_users (remote : CallResult (List UserLink)) (accountId : String) :
    List String × Option (List UserLink) :=
  match remote with
  | .ok links => (links.map (fun l => "User Email: " ++ l.userRef.email), some links)
  | .typeError e => ([queryErrorMsg e], none)
  | .httpError s r => ([apiErrorMsg s r], none)

/-- list_view_users (src/gadmin.py:72-94). -/
def list_view_users (remote : CallResult (List UserLink))
    (accountId webPropertyId profileId : String) :
    List String × Option (List UserLink) :=
  match remote with
  | .ok links => ([], some links)
  | .typeError e => ([queryErrorMsg e], none)
  | .httpError s r => ([apiErrorMsg s r], none)

structure UserConfig where
  permissions : List String
  email : String
deriving DecidableEq

/-- add_user_to_view (src/gadmin.py:225-245).  The insert response is
discarded, so the function returns None on success as well. -/
def add_user_to_view (remote : CallResult PyVal)
    (accountId webPropertyId profileId : String) (config : UserConfig) :
    List String × Option PyVal :=
  match remote with
  | .ok _ => ([], none)
  | .typeError e => ([queryErrorMsg e], none)
  | .httpError s r => ([apiErrorMsg s r], none)

/-- delete_user_from_view (src/gadmin.py:169-186); returns None on every
path. -/
def delete_user_from_view (remote : CallResult PyVal)
    (accountId webPropertyId profileId linkId : String) :
    List String × Option PyVal :=
  match remote with
  | .ok _ => ([], none)
  | .typeError e => ([queryErrorMsg e], none)
  | .httpError s r => ([apiErrorMsg s r], none)

/-! ## Tag Manager operations -/

structure Container where
  name : String
  path : String
deriving DecidableEq

/-- list_containers (src/gadmin.py:248-270). -/
def list_containers (remote : CallResult (List Container)) (accountId : String) :
    List String × Option (List Container) :=
  match remote with
  | .ok cs => (cs.map (fun c => "Name: " ++ c.name), some cs)
  | .typeError e => ([queryErrorMsg e], none)
  | .httpError s r => ([apiErrorMsg s r], none)

/-- get_container (src/gadmin.py:273-296): linear scan of the listing,
returning the first container whose name matches, `none` when the loop
falls through, and `none` on either handled error. -/
def get_container (remote : CallResult (List Container))
    (accountId containerName : String) : List String × Option Container :=
  match remote with
  | .ok cs => ([], cs.find? (fun c => c.name == containerName))
  | .typeError e => ([queryErrorMsg e], none)
  | .httpError s r => ([apiErrorMsg s r], none)

/-- create_workspace (src/gadmin.py:299-325). -/
def create_workspace (remote : CallResult PyVal) (container : Container)
    (workspace_name : String) : List String × Option PyVal :=
  match remote with
  | .ok ws => ([], some ws)
  | .typeError e => ([queryErrorMsg e], none)
  | .httpError s r => ([apiErrorMsg s r], none)

def tmPath (accountId containerId workspaceId : String) : String :=
  "accounts/" ++ accountId ++ "/containers/" ++ containerId ++ "/workspaces/" ++ workspaceId

/-- The two schedule assignments shared by create_tag
(src/gadmin.py:408-411) and the batch_create_tags loop body
(src/gadmin.py:376-382): strptime both DDMMYYYY strings — a ValueError
(here `Except.error`) propagates, no caller catches it — and assign
tag_body["scheduleStartMs"] then tag_body["scheduleEndMs"] in place. -/
def applySchedule (tag_body : Dict) (startDate endDate : String) : Except String Dict :=
  match parseDDMMYYYY startDate with
  | none => .error ("ValueError: time data " ++ startDate ++ " does not match format")
  | some ds =>
    let b1 := dictSet tag_body "scheduleStartMs" (PyVal.num (unix_time_millis ds))
    match parseDDMMYYYY endDate with
    | none => .error ("ValueError: time data " ++ endDate ++ " does not match format")
    | some de => .ok (dictSet b1 "scheduleEndMs" (PyVal.num (unix_time_millis de)))

/-- create_tag (src/gadmin.py:393-429): the schedule assignments run before
the try block; the remote call's two handled error kinds are logged and
yield None.  Result: printed lines, the final state of the caller's
tag_body, and the returned value. -/
def create_tag (remote : CallResult PyVal) (accountId containerId workspaceId : String)
    (tag_body : Dict) (startDate endDate : String) :
    Except String (List String × Dict × Option PyVal) :=
  match applySchedule tag_body startDate endDate with
  | .error e => .error e
  | .ok body1 =>
    match remote with
    | .ok r => .ok ([], body1, some r)
    | .typeError e => .ok ([queryErrorMsg e], body1, none)
    | .httpError s r => .ok ([apiErrorMsg s r], body1, none)

/-- delete_tag (src/gadmin.py:432-447); returns None on every path. -/
def delete_tag (remote : CallResult PyVal)
    (accountId containerId workspaceId tagId : String) : List String × Option PyVal :=
  match remote with
  | .ok _ => ([], none)
  | .typeError e => ([queryErrorMsg e], none)
  | .httpError s r => ([apiErrorMsg s r], none)

/-- Rendering used for the f-string interpolation of tag.get("name") in the
listing logs. -/
def pyShow : Option PyVal → String
  | some (PyVal.str s) => s
  | some (PyVal.num n) => toString n
  | some (PyVal.other n) => toString n
  | none => "None"

/-- list_tags (src/gadmin.py:450-485).  The log models the per-tag name
line; the raw `print(tag)` repr line is elided (no claim inspects it). -/
def list_tags (remote : CallResult (List Dict))
    (accountId containerId workspaceId : String) :
    List String × Option (List Dict) :=
  match remote with
  | .ok ts => (ts.map (fun t => "Tag Name: " ++ pyShow (dictGet t "name")), some ts)
  | .typeError e => ([queryErrorMsg e], none)
  | .httpError s r => ([apiErrorMsg s r], none)

/-- list_triggers (src/gadmin.py:488-518); same shape as list_tags. -/
def list_triggers (remote : CallResult (List Dict))
    (accountId containerId workspaceId : String) :
    List String × Option (List Dict) :=
  match remote with
  | .ok ts => (ts.map (fun t => "Trigger Name: " ++ pyShow (dictGet t "name")), some ts)
  | .typeError e => ([queryErrorMsg e], none)
  | .httpError s r => ([apiErrorMsg s r], none)

/-! ## Batched tag operations -/

/-- The warning printed when the input exceeds LIMIT
(src/gadmin.py:344-345 and 369-370). -/
def batchLimitWarning (LIMIT : Nat) : String :=
  "Number of requests exceeded > " ++ toString LIMIT

/-- Observable outcome of batch_create_tags: warnings printed, final states
of the caller-supplied tag bodies in order, queued requests, and the
content of each batch.execute call. -/
structure TagBatchOut where
  warnings : List String
  bodies : List Dict
  requests : List Request
  executions : List (List Request)
deriving DecidableEq

/-- The `for tag in tags` loop of batch_create_tags: schedule both dates
into each body in order.  A ValueError aborts the whole call before the
batch executes. -/
def scheduleTagList : List (Dict × String × String) → Except String (List Dict)
  | [] => .ok []
  | t :: rest =>
    match applySchedule t.1 t.2.1 t.2.2 with
    | .error e => .error e
    | .ok b =>
      match scheduleTagList rest with
      | .error e => .error e
      | .ok bs => .ok (b :: bs)

/-- batch_create_tags (src/gadmin.py:356-390): warn — and nothing else —
when the input exceeds LIMIT (the Python default is 1000), queue one create
request per tag with its scheduled body, and execute the whole batch once. -/
def batch_create_tags (accountId containerId workspaceId : String)
    (tags : List (Dict × String × String)) (LIMIT : Nat) : Except String TagBatchOut :=
  let warnings := if tags.length > LIMIT then [batchLimitWarning LIMIT] else []
  let path := tmPath accountId containerId workspaceId
  match scheduleTagList tags with
  | .error e => .error e
  | .ok bodies =>
    let requests := bodies.map (fun b => Request.createTag path b)
    .ok ⟨warnings, bodies, requests, [requests]⟩

/-- Observable outcome of batch_delete_tags. -/
structure DeleteTagsOut where
  warnings : List String
  requests : List Request
  executions : List (List Request)
deriving DecidableEq

/-- batch_delete_tags (src/gadmin.py:333-353): warn — and nothing else —
when over LIMIT, queue one delete request per tag id, execute once. -/
def batch_delete_tags (accountId containerId workspaceId : String)
    (tags : List String) (LIMIT : Nat) : DeleteTagsOut :=
  let warnings := if tags.length > LIMIT then [batchLimitWarning LIMIT] else []
  let requests := tags.map (fun tag =>
    Request.deleteTag (tmPath accountId containerId workspaceId ++ "/tags/" ++ tag))
  ⟨warnings, requests, [requests]⟩

/-! ## Serverless handler (src/addUsers.py) -/

/-- Values passed to print, in order, and the returned status object. -/
structure HandlerOut where
  printed : List PyVal
  result : Dict
deriving DecidableEq

/-- handler (src/addUsers.py:12-17): fetch client_secrets.json from the
gadmin-lambda bucket, print the body and its JSON decoding, and return the
fixed status object.  s3GetObject and jsonLoad are the effect oracles; a
failure of either propagates out of the handler. -/
def handler (event context : PyVal)
    (s3GetObject : String → String → Except String String)
    (jsonLoad : String → Except String PyVal) : Except String HandlerOut :=
  match s3GetObject "gadmin-lambda" "client_secrets.json" with
  | .error e => .error e
  | .ok body =>
    match jsonLoad body with
    | .error e => .error e
    | .ok decoded => .ok ⟨[PyVal.str body, decoded], [("status", PyVal.num 200)]⟩

/-! ## Concrete environments used by the evaluation theorems -/

/-- One account, one property, one view, one link matching the requested
email. -/
def envOneMatch : AnalyticsEnv :=
  ⟨[⟨"A1", [⟨"P1", [⟨"V1"⟩]⟩]⟩],
   fun a p v =>
     if a = "A1" ∧ p = "P1" ∧ v = "V1" then [⟨"L1", ⟨"user@example.com"⟩⟩] else [],
   fun _ => .ok "deleted"⟩

/-- The spec's example scenario: one account with two web properties, and
only the first property's view has a link whose email matches the target
(plus one non-matching link). -/
def envTwoProps : AnalyticsEnv :=
  ⟨[⟨"A1", [⟨"P1", [⟨"V1"⟩]⟩, ⟨"P2", [⟨"V2"⟩]⟩]⟩],
   fun a p v =>
     if a = "A1" ∧ p = "P1" ∧ v = "V1" then
       [⟨"L1", ⟨"user@example.com"⟩⟩, ⟨"L2", ⟨"other@example.com"⟩⟩]
     else [],
   fun _ => .ok "deleted"⟩

/-- The scheduled body obtained from an empty tag dict and the date pair
23.05.2019 / 26.05.2019 (18039 and 18042 days after the epoch). -/
def tagBodySample : Dict :=
  [("scheduleStartMs", PyVal.num 1558569600000), ("scheduleEndMs", PyVal.num 1558828800000)]

/-- The outcome of batch_create_tags on two such tags with LIMIT 1. -/
def c4SampleOut : TagBatchOut :=
  ⟨[batchLimitWarning 1], [tagBodySample, tagBodySample],
    [Request.createTag "accounts/8/containers/9/workspaces/10" tagBodySample,
     Request.createTag "accounts/8/containers/9/workspaces/10" tagBodySample],
    [[Request.createTag "accounts/8/containers/9/workspaces/10" tagBodySample,
      Request.createTag "accounts/8/containers/9/workspaces/10" tagBodySample]]⟩

/-! ## Calendar lemmas -/

theorem leapYearsBefore_succ (y : Nat) (hy : 1 ≤ y) :
    leapYearsBefore (y + 1) = leapYearsBefore y + leapDay y := by
  unfold leapYearsBefore leapDay
  split
  · next h => unfold isLeapYear at h; omega
  · next h => unfold isLeapYear at h; omega

theorem leapYearsBefore_le_succ (y : Nat) : leapYearsBefore y ≤ leapYearsBefore (y + 1) := by
  rcases Nat.eq_zero_or_pos y with h | h
  · subst h; decide
  · rw [leapYearsBefore_succ y h]; exact Nat.le_add_right _ _

theorem leapYearsBefore_mono {y1 y2 : Nat} (h : y1 ≤ y2) :
    leapYearsBefore y1 ≤ leapYearsBefore y2 := by
  induction y2 with
  | zero =>
    have : y1 = 0 := by omega
    subst this; exact Nat.le_refl _
  | succ n ih =>
    rcases Nat.lt_or_ge y1 (n + 1) with h' | h'
    · exact Nat.le_trans (ih (by omega)) (leapYearsBefore_le_succ n)
    · have : y1 = n + 1 := by omega
      subst this; exact Nat.le_refl _

theorem daysBeforeMonth_day_le (y m d : Nat) (h1 : 1 ≤ m) (h2 : m ≤ 12)
    (hd : d ≤ daysInMonth y m) :
    daysBeforeMonth y m + d ≤ 365 + leapDay y := by
  have hld : leapDay y ≤ 1 := by unfold leapDay; split <;> omega
  interval_cases m <;> simp [daysBeforeMonth, daysInMonth] at hd ⊢ <;> omega

theorem daysBeforeMonth_step (y m1 m2 d : Nat) (h1 : 1 ≤ m1) (hlt : m1 < m2) (h2 : m2 ≤ 12)
    (hd : d ≤ daysInMonth y m1) :
    daysBeforeMonth y m1 + d ≤ daysBeforeMonth y m2 := by
  have h11 : m1 ≤ 11 := by omega
  interval_cases m1 <;> interval_cases m2 <;>
    simp [daysBeforeMonth, daysInMonth] at hd ⊢ <;> omega

theorem rataDie_lt_of_dateBefore {a b : Date} (ha : ValidDate a) (hb : ValidDate b)
    (hab : dateBefore a b) : rataDie a < rataDie b := by
  obtain ⟨had1, had2, ham1, ham2, hay1, hay2⟩ := ha
  obtain ⟨hbd1, hbd2, hbm1, hbm2, hby1, hby2⟩ := hb
  unfold rataDie
  rcases hab with hy | ⟨hy, hm | ⟨hm, hd⟩⟩
  · have hA := daysBeforeMonth_day_le a.year a.month a.day ham1 ham2 had2
    have hstep := leapYearsBefore_succ a.year hay1
    have hmono := leapYearsBefore_mono (show a.year + 1 ≤ b.year by omega)
    omega
  · rw [hy] at had2 ⊢
    have hstep := daysBeforeMonth_step b.year a.month b.month a.day ham1 hm hbm2 had2
    omega
  · rw [hy, hm]
    omega

theorem parseDDMMYYYY_valid {s : String} {d : Date} (h : parseDDMMYYYY s = some d) :
    ValidDate d := by
  unfold parseDDMMYYYY at h
  repeat' split at h
  all_goals simp_all
  exact h.2 ▸ h.1

theorem unix_time_millis_lt_of_dateBefore {a b : Date} (ha : ValidDate a) (hb : ValidDate b)
    (hab : dateBefore a b) : unix_time_millis a < unix_time_millis b := by
  have h := rataDie_lt_of_dateBefore ha hb hab
  unfold unix_time_millis totalSeconds daysSinceEpoch
  omega

/-! ## Claim C3 -/

/-- C3: for every pair of DDMMYYYY date strings accepted by strptime, with
the first chronologically before the second, the derived scheduleStartMs is
strictly below the derived scheduleEndMs, and each derived millisecond
value divided by 1000 is exactly the seconds-since-epoch of the UTC
midnight instant that was parsed (the conversion round-trips). -/
theorem c3_schedule_millis_order_and_roundtrip (s1 s2 : String) (d1 d2 : Date)
    (h1 : parseDDMMYYYY s1 = some d1) (h2 : parseDDMMYYYY s2 = some d2)
    (hlt : dateBefore d1 d2) :
    unix_time_millis d1 < unix_time_millis d2 ∧
    unix_time_millis d1 / 1000 = totalSeconds d1 ∧
    unix_time_millis d2 / 1000 = totalSeconds d2 := by
  refine ⟨unix_time_millis_lt_of_dateBefore (parseDDMMYYYY_valid h1)
    (parseDDMMYYYY_valid h2) hlt, ?_, ?_⟩ <;>
  · unfold unix_time_millis
    omega

/-- Witness for C3 at the date strings used in src/gadmin.py:619. -/
theorem c3_witness :
    parseDDMMYYYY "23052019" = some ⟨23, 5, 2019⟩ ∧
    parseDDMMYYYY "26052019" = some ⟨26, 5, 2019⟩ ∧
    dateBefore ⟨23, 5, 2019⟩ ⟨26, 5, 2019⟩ ∧
    (unix_time_millis ⟨23, 5, 2019⟩ < unix_time_millis ⟨26, 5, 2019⟩ ∧
      unix_time_millis ⟨23, 5, 2019⟩ / 1000 = totalSeconds ⟨23, 5, 2019⟩ ∧
      unix_time_millis ⟨26, 5, 2019⟩ / 1000 = totalSeconds ⟨26, 5, 2019⟩) :=
  ⟨by decide, by decide, by decide,
    c3_schedule_millis_order_and_roundtrip "23052019" "26052019" ⟨23, 5, 2019⟩
      ⟨26, 5, 2019⟩ (by decide) (by decide) (by decide)⟩

/-! ## Lemmas about batch_delete_users -/

theorem foldl_append_nil {α β : Type} (f : β → List α) :
    ∀ (l : List β) (b : List α), (∀ x ∈ l, f x = []) →
      l.foldl (fun acc x => acc ++ f x) b = b := by
  intro l
  induction l with
  | nil => intro b _; rfl
  | cons hd tl ih =>
    intro b h
    simp only [List.foldl_cons]
    rw [h hd (by simp), List.append_nil]
    exact ih b (fun x hx => h x (by simp [hx]))

theorem viewDeleteRequests_nil (env : AnalyticsEnv) (user aid pid : String)
    (view : ProfileSummary)
    (h : ∀ link ∈ env.profileUserLinks aid pid view.id, link.userRef.email ≠ user) :
    viewDeleteRequests env user aid pid view = [] := by
  unfold viewDeleteRequests
  have hf : (env.profileUserLinks aid pid view.id).filter
      (fun x => x.userRef.email == user) = [] := by
    rw [List.filter_eq_nil_iff]
    intro a ha
    simpa using h a ha
  simp [hf]

theorem delete_user_from_property_nil (env : AnalyticsEnv) (user : String)
    (prop : WebPropertySummary) (aid : String)
    (h : ∀ v ∈ prop.profiles, ∀ link ∈ env.profileUserLinks aid prop.id v.id,
      link.userRef.email ≠ user) :
    delete_user_from_property env user prop aid [] = [] := by
  unfold delete_user_from_property
  exact foldl_append_nil _ prop.profiles []
    (fun v hv => viewDeleteRequests_nil env user aid prop.id v (h v hv))

theorem flatten_eq_nil_of_all {α : Type} :
    ∀ (l : List (List α)), (∀ x ∈ l, x = []) → l.flatten = [] := by
  intro l
  induction l with
  | nil => intro _; rfl
  | cons hd tl ih =>
    intro h
    simp only [List.flatten_cons]
    rw [h hd (by simp), List.nil_append]
    exact ih (fun x hx => h x (by simp [hx]))

/-! ## Claims C1, C2, C6, C8 -/

/-- C1 (code bug witness): at an account with one property whose one view
has a link matching the requested email, the worker's copy of the batch
ends holding the delete request, but the batch the parent executes is
empty: no request enqueued by a worker ever reaches the executed batch,
because multiprocessing workers mutate copies, not the parent's object. -/
theorem c1_worker_requests_never_reach_executed_batch :
    batch_delete_users envOneMatch "20278225" ["user@example.com"] none =
      [⟨"A1", "user@example.com",
        [[Request.deleteProfileUserLink "A1" "P1" "V1" "L1"]], [], false, []⟩] := by
  decide

/-- C2 (code bug witness): the spec's example scenario — one account, two
web properties, exactly one matching view link.  The workers' copies hold
exactly one delete request in total (the per-property match count), yet the
executed batch is empty, no HTTP call happens and the callback logs zero
success entries, where the claim requires one queued request in the
executed batch and one logged success. -/
theorem c2_example_scenario_logs_no_success :
    batch_delete_users envTwoProps "20278225" ["user@example.com"] none =
      [⟨"A1", "user@example.com",
        [[Request.deleteProfileUserLink "A1" "P1" "V1" "L1"], []], [], false, []⟩] := by
  decide

/-- C6: when no user link under any property and view of the accounts with
the given id has the requested email, every (account, email) pair run for
that id queues no delete request anywhere — neither in any worker's copy
nor in the executed batch — and executing the empty batch is a no-op: no
HTTP call, no callback output, no error. -/
theorem c6_no_match_executes_as_noop (env : AnalyticsEnv) (accountId : String)
    (users : List String) (views : Option (List String)) (aid user : String)
    (hnone : ∀ acct ∈ env.accountSummaries, acct.id = aid →
      ∀ prop ∈ acct.webProperties, ∀ v ∈ prop.profiles,
        ∀ link ∈ env.profileUserLinks acct.id prop.id v.id, link.userRef.email ≠ user) :
    ∀ t ∈ batch_delete_users env accountId users views,
      t.accountId = aid → t.user = user →
        t.workerBatches.flatten = [] ∧ t.executedBatch = [] ∧
        t.httpCalled = false ∧ t.callbackLog = [] := by
  intro t ht hta htu
  unfold batch_delete_users at ht
  rw [List.mem_flatten] at ht
  obtain ⟨l, hl, htl⟩ := ht
  rw [List.mem_map] at hl
  obtain ⟨account, hacct, rfl⟩ := hl
  rw [List.mem_map] at htl
  obtain ⟨u, _, rfl⟩ := htl
  unfold runPair at hta htu ⊢
  simp only at hta htu ⊢
  refine ⟨?_, rfl, rfl, rfl⟩
  apply flatten_eq_nil_of_all
  intro w hw
  rw [List.mem_map] at hw
  obtain ⟨prop, hprop, rfl⟩ := hw
  exact delete_user_from_property_nil env u prop account.id
    (fun v hv link hlink => htu ▸ hnone account hacct hta prop hprop v hv link hlink)

/-- Witness for C6: an environment whose only link's email differs from
the requested one. -/
theorem c6_witness :
    (∀ acct ∈ envOneMatch.accountSummaries, acct.id = "A1" →
      ∀ prop ∈ acct.webProperties, ∀ v ∈ prop.profiles,
        ∀ link ∈ envOneMatch.profileUserLinks acct.id prop.id v.id,
          link.userRef.email ≠ "absent@example.com") ∧
    (∀ t ∈ batch_delete_users envOneMatch "20278225" ["absent@example.com"] none,
      t.accountId = "A1" → t.user = "absent@example.com" →
        t.workerBatches.flatten = [] ∧ t.executedBatch = [] ∧
        t.httpCalled = false ∧ t.callbackLog = []) :=
  ⟨by decide,
    c6_no_match_executes_as_noop envOneMatch "20278225" ["absent@example.com"] none
      "A1" "absent@example.com" (by decide)⟩

/-- C8: batch_delete_users never reads its accountId and views parameters;
two calls differing only there produce identical pair runs (same accounts
processed, same worker and executed batches, same callback logs). -/
theorem c8_accountId_and_views_are_ignored (env : AnalyticsEnv) (a1 a2 : String)
    (users : List String) (v1 v2 : Option (List String)) :
    batch_delete_users env a1 users v1 = batch_delete_users env a2 users v2 := rfl

/-! ## Dictionary lemmas -/

theorem dictGet_dictSet_same (d : Dict) (k : String) (v : PyVal) :
    dictGet (dictSet d k v) k = some v := by
  induction d with
  | nil => simp [dictSet, dictGet]
  | cons p rest ih =>
    obtain ⟨k', v'⟩ := p
    by_cases h : k' = k
    · simp [dictSet, dictGet, h]
    · simp [dictSet, dictGet, h, ih]

theorem dictGet_dictSet_ne (d : Dict) (k k2 : String) (v : PyVal) (h : k2 ≠ k) :
    dictGet (dictSet d k v) k2 = dictGet d k2 := by
  have h' : k ≠ k2 := fun hh => h hh.symm
  induction d with
  | nil => simp [dictSet, dictGet, h']
  | cons p rest ih =>
    obtain ⟨k', v'⟩ := p
    by_cases hk : k' = k
    · subst hk
      simp [dictSet, dictGet, h']
    · by_cases hk2 : k' = k2
      · simp [dictSet, dictGet, hk, hk2, h]
      · simp [dictSet, dictGet, hk, hk2, ih]

/-! ## Lemmas about the tag-batch loop -/

theorem scheduleTagList_length : ∀ (ts : List (Dict × String × String)) (bs : List Dict),
    scheduleTagList ts = .ok bs → bs.length = ts.length := by
  intro ts
  induction ts with
  | nil =>
    intro bs h
    simp only [scheduleTagList] at h
    cases h
    rfl
  | cons t rest ih =>
    intro bs h
    simp only [scheduleTagList] at h
    cases heq : applySchedule t.1 t.2.1 t.2.2 with
    | error e => rw [heq] at h; cases h
    | ok b =>
      rw [heq] at h
      cases heq2 : scheduleTagList rest with
      | error e => rw [heq2] at h; cases h
      | ok bs' =>
        rw [heq2] at h
        cases h
        simp [ih bs' heq2]

theorem scheduleTagList_get : ∀ (ts : List (Dict × String × String)) (bs : List Dict),
    scheduleTagList ts = .ok bs →
    ∀ (i : Nat) (hi : i < ts.length) (hi' : i < bs.length),
      applySchedule (ts.get ⟨i, hi⟩).1 (ts.get ⟨i, hi⟩).2.1 (ts.get ⟨i, hi⟩).2.2 =
        .ok (bs.get ⟨i, hi'⟩) := by
  intro ts
  induction ts with
  | nil =>
    intro bs h i hi
    exact absurd hi (by simp)
  | cons t rest ih =>
    intro bs h i hi hi'
    simp only [scheduleTagList] at h
    cases heq : applySchedule t.1 t.2.1 t.2.2 with
    | error e => rw [heq] at h; cases h
    | ok b =>
      rw [heq] at h
      cases heq2 : scheduleTagList rest with
      | error e => rw [heq2] at h; cases h
      | ok bs' =>
        rw [heq2] at h
        cases h
        cases i with
        | zero => simpa using heq
        | succ n =>
          simpa using ih bs' heq2 n (by simpa using hi) (by simpa using hi')

/-! ## Claim C4 -/

/-- C4: on inputs longer than LIMIT, batch_delete_tags warns yet still
queues one request per item and executes the whole batch once, and
batch_create_tags (whenever it completes) does the same: the limit never
truncates either batch nor aborts the call. -/
theorem c4_limit_warns_but_full_batch_executes (a c w : String) (tagIds : List String)
    (tags : List (Dict × String × String)) (LIMIT : Nat) (out : TagBatchOut)
    (h1 : tagIds.length > LIMIT) (h2 : tags.length > LIMIT)
    (hok : batch_create_tags a c w tags LIMIT = .ok out) :
    (batch_delete_tags a c w tagIds LIMIT).warnings = [batchLimitWarning LIMIT] ∧
    (batch_delete_tags a c w tagIds LIMIT).requests.length = tagIds.length ∧
    (batch_delete_tags a c w tagIds LIMIT).executions =
      [(batch_delete_tags a c w tagIds LIMIT).requests] ∧
    out.warnings = [batchLimitWarning LIMIT] ∧
    out.requests.length = tags.length ∧
    out.executions = [out.requests] := by
  simp only [batch_create_tags] at hok
  split at hok
  · cases hok
  · next bodies heq =>
    cases hok
    exact ⟨by simp [batch_delete_tags, h1], by simp [batch_delete_tags],
      by simp [batch_delete_tags], by simp [h1, h2],
      by simp [scheduleTagList_length tags bodies heq], by simp⟩

/-- Witness for C4: two tag ids and two tag specs against LIMIT 1. -/
theorem c4_witness :
    (["495", "496"] : List String).length > 1 ∧
    ([([], "23052019", "26052019"), ([], "23052019", "26052019")] :
        List (Dict × String × String)).length > 1 ∧
    batch_create_tags "8" "9" "10"
        [([], "23052019", "26052019"), ([], "23052019", "26052019")] 1 =
      .ok c4SampleOut ∧
    ((batch_delete_tags "8" "9" "10" ["495", "496"] 1).warnings = [batchLimitWarning 1] ∧
      (batch_delete_tags "8" "9" "10" ["495", "496"] 1).requests.length =
        (["495", "496"] : List String).length ∧
      (batch_delete_tags "8" "9" "10" ["495", "496"] 1).executions =
        [(batch_delete_tags "8" "9" "10" ["495", "496"] 1).requests] ∧
      c4SampleOut.warnings = [batchLimitWarning 1] ∧
      c4SampleOut.requests.length =
        ([([], "23052019", "26052019"), ([], "23052019", "26052019")] :
          List (Dict × String × String)).length ∧
      c4SampleOut.executions = [c4SampleOut.requests]) :=
  ⟨by decide, by decide, by rfl,
    c4_limit_warns_but_full_batch_executes "8" "9" "10" ["495", "496"]
      [([], "23052019", "26052019"), ([], "23052019", "26052019")] 1 c4SampleOut
      (by decide) (by decide) (by rfl)⟩

/-! ## Claim C9 -/

/-- C9: create_tag and batch_create_tags write the derived
scheduleStartMs/scheduleEndMs values into the caller-supplied tag body
(overwriting whatever was there) and leave every other key of the body
unchanged; the same final body B is what both operations leave behind. -/
theorem c9_schedule_mutates_body_in_place (remote : CallResult PyVal)
    (a c w sd ed : String) (d1 d2 : Date) (body : Dict)
    (tags : List (Dict × String × String)) (LIMIT i : Nat) (out : TagBatchOut)
    (h1 : parseDDMMYYYY sd = some d1) (h2 : parseDDMMYYYY ed = some d2)
    (hi : i < tags.length) (htag : tags.get ⟨i, hi⟩ = (body, sd, ed))
    (hout : batch_create_tags a c w tags LIMIT = .ok out) :
    ∃ B, (∃ lg res, create_tag remote a c w body sd ed = Except.ok (lg, B, res)) ∧
      dictGet B "scheduleStartMs" = some (PyVal.num (unix_time_millis d1)) ∧
      dictGet B "scheduleEndMs" = some (PyVal.num (unix_time_millis d2)) ∧
      (∀ k, k ≠ "scheduleStartMs" → k ≠ "scheduleEndMs" → dictGet B k = dictGet body k) ∧
      ∃ hi' : i < out.bodies.length, out.bodies.get ⟨i, hi'⟩ = B := by
  have happ : applySchedule body sd ed =
      .ok (dictSet (dictSet body "scheduleStartMs" (PyVal.num (unix_time_millis d1)))
        "scheduleEndMs" (PyVal.num (unix_time_millis d2))) := by
    simp [applySchedule, h1, h2]
  refine ⟨dictSet (dictSet body "scheduleStartMs" (PyVal.num (unix_time_millis d1)))
      "scheduleEndMs" (PyVal.num (unix_time_millis d2)), ?_, ?_, ?_, ?_, ?_⟩
  · cases remote with
    | ok r => exact ⟨[], some r, by simp [create_tag, happ]⟩
    | typeError err => exact ⟨[queryErrorMsg err], none, by simp [create_tag, happ]⟩
    | httpError st r => exact ⟨[apiErrorMsg st r], none, by simp [create_tag, happ]⟩
  · rw [dictGet_dictSet_ne _ _ _ _ (by decide)]
    exact dictGet_dictSet_same _ _ _
  · exact dictGet_dictSet_same _ _ _
  · intro k hk1 hk2
    rw [dictGet_dictSet_ne _ _ _ _ hk2, dictGet_dictSet_ne _ _ _ _ hk1]
  · simp only [batch_create_tags] at hout
    split at hout
    · cases hout
    · next bodies heq =>
      cases hout
      have hlen := scheduleTagList_length tags bodies heq
      have hget := scheduleTagList_get tags bodies heq i hi (by omega)
      rw [htag] at hget
      rw [happ] at hget
      exact ⟨by simpa [hlen] using hi, (Except.ok.inj hget).symm⟩

/-- Witness for C9: a one-element batch over a body with one other key. -/
theorem c9_witness :
    parseDDMMYYYY "23052019" = some ⟨23, 5, 2019⟩ ∧
    parseDDMMYYYY "26052019" = some ⟨26, 5, 2019⟩ ∧
    batch_create_tags "8" "9" "10" [([("name", PyVal.str "Test Tag 1")], "23052019",
        "26052019")] 1000 =
      .ok ⟨[], [[("name", PyVal.str "Test Tag 1"), ("scheduleStartMs", PyVal.num 1558569600000),
          ("scheduleEndMs", PyVal.num 1558828800000)]],
        [Request.createTag "accounts/8/containers/9/workspaces/10"
          [("name", PyVal.str "Test Tag 1"), ("scheduleStartMs", PyVal.num 1558569600000),
            ("scheduleEndMs", PyVal.num 1558828800000)]],
        [[Request.createTag "accounts/8/containers/9/workspaces/10"
          [("name", PyVal.str "Test Tag 1"), ("scheduleStartMs", PyVal.num 1558569600000),
            ("scheduleEndMs", PyVal.num 1558828800000)]]]⟩ ∧
    (∃ B, (∃ lg res, create_tag (CallResult.ok (PyVal.num 0)) "8" "9" "10"
          [("name", PyVal.str "Test Tag 1")] "23052019" "26052019" = Except.ok (lg, B, res)) ∧
      dictGet B "scheduleStartMs" = some (PyVal.num (unix_time_millis ⟨23, 5, 2019⟩)) ∧
      dictGet B "scheduleEndMs" = some (PyVal.num (unix_time_millis ⟨26, 5, 2019⟩)) ∧
      (∀ k, k ≠ "scheduleStartMs" → k ≠ "scheduleEndMs" →
        dictGet B k = dictGet [("name", PyVal.str "Test Tag 1")] k) ∧
      ∃ hi' : 0 < (⟨[], [[("name", PyVal.str "Test Tag 1"),
          ("scheduleStartMs", PyVal.num 1558569600000),
          ("scheduleEndMs", PyVal.num 1558828800000)]],
        [Request.createTag "accounts/8/containers/9/workspaces/10"
          [("name", PyVal.str "Test Tag 1"), ("scheduleStartMs", PyVal.num 1558569600000),
            ("scheduleEndMs", PyVal.num 1558828800000)]],
        [[Request.createTag "accounts/8/containers/9/workspaces/10"
          [("name", PyVal.str "Test Tag 1"), ("scheduleStartMs", PyVal.num 1558569600000),
            ("scheduleEndMs", PyVal.num 1558828800000)]]]⟩ : TagBatchOut).bodies.length,
        (⟨[], [[("name", PyVal.str "Test Tag 1"),
            ("scheduleStartMs", PyVal.num 1558569600000),
            ("scheduleEndMs", PyVal.num 1558828800000)]],
          [Request.createTag "accounts/8/containers/9/workspaces/10"
            [("name", PyVal.str "Test Tag 1"), ("scheduleStartMs", PyVal.num 1558569600000),
              ("scheduleEndMs", PyVal.num 1558828800000)]],
          [[Request.createTag "accounts/8/containers/9/workspaces/10"
            [("name", PyVal.str "Test Tag 1"), ("scheduleStartMs", PyVal.num 1558569600000),
              ("scheduleEndMs", PyVal.num 1558828800000)]]]⟩ : TagBatchOut).bodies.get
          ⟨0, hi'⟩ = B) :=
  ⟨by decide, by decide, by rfl,
    c9_schedule_mutates_body_in_place (CallResult.ok (PyVal.num 0)) "8" "9" "10"
      "23052019" "26052019" ⟨23, 5, 2019⟩ ⟨26, 5, 2019⟩ [("name", PyVal.str "Test Tag 1")]
      [([("name", PyVal.str "Test Tag 1")], "23052019", "26052019")] 1000 0 _
      (by decide) (by decide) (by decide) (by decide) (by rfl)⟩

/-! ## Claim C5 -/

/-- C5: every single-entity operation, when its remote call raises
TypeError or HttpError, prints the corresponding message (the
"constructing your query" line with the cause, or the API-error line with
status and reason) and returns None; neither error kind escapes the call.
For create_tag the date strings must parse, since strptime runs before the
try block. -/
theorem c5_single_entity_error_handling (e r : String) (st : Nat)
    (aid wpid pid lid cname wsname tid a c w : String) (cfg : UserConfig)
    (container : Container) (body : Dict) (sd ed : String) (d1 d2 : Date)
    (hsd : parseDDMMYYYY sd = some d1) (hed : parseDDMMYYYY ed = some d2) :
    list_account_users (.typeError e) aid = ([queryErrorMsg e], none) ∧
    list_account_users (.httpError st r) aid = ([apiErrorMsg st r], none) ∧
    list_view_users (.typeError e) aid wpid pid = ([queryErrorMsg e], none) ∧
    list_view_users (.httpError st r) aid wpid pid = ([apiErrorMsg st r], none) ∧
    add_user_to_view (.typeError e) aid wpid pid cfg = ([queryErrorMsg e], none) ∧
    add_user_to_view (.httpError st r) aid wpid pid cfg = ([apiErrorMsg st r], none) ∧
    delete_user_from_view (.typeError e) aid wpid pid lid = ([queryErrorMsg e], none) ∧
    delete_user_from_view (.httpError st r) aid wpid pid lid = ([apiErrorMsg st r], none) ∧
    list_containers (.typeError e) aid = ([queryErrorMsg e], none) ∧
    list_containers (.httpError st r) aid = ([apiErrorMsg st r], none) ∧
    get_container (.typeError e) aid cname = ([queryErrorMsg e], none) ∧
    get_container (.httpError st r) aid cname = ([apiErrorMsg st r], none) ∧
    create_workspace (.typeError e) container wsname = ([queryErrorMsg e], none) ∧
    create_workspace (.httpError st r) container wsname = ([apiErrorMsg st r], none) ∧
    (∃ B, create_tag (.typeError e) a c w body sd ed =
      Except.ok ([queryErrorMsg e], B, none)) ∧
    (∃ B, create_tag (.httpError st r) a c w body sd ed =
      Except.ok ([apiErrorMsg st r], B, none)) ∧
    delete_tag (.typeError e) a c w tid = ([queryErrorMsg e], none) ∧
    delete_tag (.httpError st r) a c w tid = ([apiErrorMsg st r], none) ∧
    list_tags (.typeError e) a c w = ([queryErrorMsg e], none) ∧
    list_tags (.httpError st r) a c w = ([apiErrorMsg st r], none) ∧
    list_triggers (.typeError e) a c w = ([queryErrorMsg e], none) ∧
    list_triggers (.httpError st r) a c w = ([apiErrorMsg st r], none) := by
  have happ : applySchedule body sd ed =
      .ok (dictSet (dictSet body "scheduleStartMs" (PyVal.num (unix_time_millis d1)))
        "scheduleEndMs" (PyVal.num (unix_time_millis d2))) := by
    simp [applySchedule, hsd, hed]
  refine ⟨rfl, rfl, rfl, rfl, rfl, rfl, rfl, rfl, rfl, rfl, rfl, rfl, rfl, rfl,
    ⟨dictSet (dictSet body "scheduleStartMs" (PyVal.num (unix_time_millis d1)))
      "scheduleEndMs" (PyVal.num (unix_time_millis d2)), ?_⟩,
    ⟨dictSet (dictSet body "scheduleStartMs" (PyVal.num (unix_time_millis d1)))
      "scheduleEndMs" (PyVal.num (unix_time_millis d2)), ?_⟩,
    rfl, rfl, rfl, rfl, rfl, rfl⟩ <;>
  · simp [create_tag, happ]

/-- Witness for C5 at concrete error payloads and arguments. -/
theorem c5_witness :
    parseDDMMYYYY "23052019" = some ⟨23, 5, 2019⟩ ∧
    parseDDMMYYYY "26052019" = some ⟨26, 5, 2019⟩ ∧
    (list_account_users (.typeError "E") "1" = ([queryErrorMsg "E"], none) ∧
    list_account_users (.httpError 403 "R") "1" = ([apiErrorMsg 403 "R"], none) ∧
    list_view_users (.typeError "E") "1" "2" "3" = ([queryErrorMsg "E"], none) ∧
    list_view_users (.httpError 403 "R") "1" "2" "3" = ([apiErrorMsg 403 "R"], none) ∧
    add_user_to_view (.typeError "E") "1" "2" "3" ⟨["READ_AND_ANALYZE"], "u@e"⟩ =
      ([queryErrorMsg "E"], none) ∧
    add_user_to_view (.httpError 403 "R") "1" "2" "3" ⟨["READ_AND_ANALYZE"], "u@e"⟩ =
      ([apiErrorMsg 403 "R"], none) ∧
    delete_user_from_view (.typeError "E") "1" "2" "3" "4" = ([queryErrorMsg "E"], none) ∧
    delete_user_from_view (.httpError 403 "R") "1" "2" "3" "4" =
      ([apiErrorMsg 403 "R"], none) ∧
    list_containers (.typeError "E") "1" = ([queryErrorMsg "E"], none) ∧
    list_containers (.httpError 403 "R") "1" = ([apiErrorMsg 403 "R"], none) ∧
    get_container (.typeError "E") "1" "5" = ([queryErrorMsg "E"], none) ∧
    get_container (.httpError 403 "R") "1" "5" = ([apiErrorMsg 403 "R"], none) ∧
    create_workspace (.typeError "E") ⟨"n", "p"⟩ "6" = ([queryErrorMsg "E"], none) ∧
    create_workspace (.httpError 403 "R") ⟨"n", "p"⟩ "6" = ([apiErrorMsg 403 "R"], none) ∧
    (∃ B, create_tag (.typeError "E") "8" "9" "10" [] "23052019" "26052019" =
      Except.ok ([queryErrorMsg "E"], B, none)) ∧
    (∃ B, create_tag (.httpError 403 "R") "8" "9" "10" [] "23052019" "26052019" =
      Except.ok ([apiErrorMsg 403 "R"], B, none)) ∧
    delete_tag (.typeError "E") "8" "9" "10" "7" = ([queryErrorMsg "E"], none) ∧
    delete_tag (.httpError 403 "R") "8" "9" "10" "7" = ([apiErrorMsg 403 "R"], none) ∧
    list_tags (.typeError "E") "8" "9" "10" = ([queryErrorMsg "E"], none) ∧
    list_tags (.httpError 403 "R") "8" "9" "10" = ([apiErrorMsg 403 "R"], none) ∧
    list_triggers (.typeError "E") "8" "9" "10" = ([queryErrorMsg "E"], none) ∧
    list_triggers (.httpError 403 "R") "8" "9" "10" = ([apiErrorMsg 403 "R"], none)) :=
  ⟨by decide, by decide,
    c5_single_entity_error_handling "E" "R" 403 "1" "2" "3" "4" "5" "6" "7" "8" "9" "10"
      ⟨["READ_AND_ANALYZE"], "u@e"⟩ ⟨"n", "p"⟩ [] "23052019" "26052019"
      ⟨23, 5, 2019⟩ ⟨26, 5, 2019⟩ (by decide) (by decide)⟩

/-! ## Claim C7 -/

/-- C7: whatever the event and context, when the S3 fetch of
client_secrets.json from the gadmin-lambda bucket and the JSON decoding of
its body both succeed, the handler prints the body and the decoded object
and returns exactly the status-200 dict. -/
theorem c7_handler_returns_status_200 (event context : PyVal)
    (s3GetObject : String → String → Except String String)
    (jsonLoad : String → Except String PyVal) (body : String) (decoded : PyVal)
    (h1 : s3GetObject "gadmin-lambda" "client_secrets.json" = .ok body)
    (h2 : jsonLoad body = .ok decoded) :
    handler event context s3GetObject jsonLoad =
      .ok ⟨[PyVal.str body, decoded], [("status", PyVal.num 200)]⟩ := by
  simp [handler, h1, h2]

/-- Witness for C7 with concrete oracles. -/
theorem c7_witness :
    (fun b k => if b = "gadmin-lambda" ∧ k = "client_secrets.json" then
        Except.ok "secret" else Except.error "NoSuchKey" :
      String → String → Except String String) "gadmin-lambda" "client_secrets.json" =
        .ok "secret" ∧
    (fun s => Except.ok (PyVal.str s) : String → Except String PyVal) "secret" =
      .ok (PyVal.str "secret") ∧
    handler (PyVal.num 0) (PyVal.num 1)
        (fun b k => if b = "gadmin-lambda" ∧ k = "client_secrets.json" then
          Except.ok "secret" else Except.error "NoSuchKey")
        (fun s => Except.ok (PyVal.str s)) =
      .ok ⟨[PyVal.str "secret", PyVal.str "secret"], [("status", PyVal.num 200)]⟩ :=
  ⟨by rfl, by rfl,
    c7_handler_returns_status_200 (PyVal.num 0) (PyVal.num 1)
      (fun b k => if b = "gadmin-lambda" ∧ k = "client_secrets.json" then
        Except.ok "secret" else Except.error "NoSuchKey")
      (fun s => Except.ok (PyVal.str s)) "secret" (PyVal.str "secret")
      (by rfl) (by rfl)⟩

/-! ## Claim C10 -/

theorem find?_append_first {α : Type} (p : α → Bool) :
    ∀ (pre : List α) (c : α) (post : List α),
      p c = true → (∀ x ∈ pre, p x = false) → (pre ++ c :: post).find? p = some c := by
  intro pre
  induction pre with
  | nil =>
    intro c post hc _
    simpa using List.find?_cons_of_pos post hc
  | cons hd tl ih =>
    intro c post hc hpre
    have hh : ¬p hd = true := by simp [hpre hd (by simp)]
    rw [List.cons_append, List.find?_cons_of_neg _ hh]
    exact ih c post hc (fun x hx => hpre x (by simp [hx]))

/-- C10: get_container returns the first listed container whose name equals
the requested one, and returns none both when no name matches and when the
remote call fails with either handled error kind — a none result does not
distinguish not-found from error. -/
theorem c10_get_container_first_match_or_none (aid t e r : String) (st : Nat)
    (noMatch pre post : List Container) (c : Container)
    (hc : c.name = t) (hpre : ∀ x ∈ pre, x.name ≠ t)
    (hnm : ∀ x ∈ noMatch, x.name ≠ t) :
    get_container (.ok noMatch) aid t = ([], none) ∧
    get_container (.ok (pre ++ c :: post)) aid t = ([], some c) ∧
    get_container (.typeError e) aid t = ([queryErrorMsg e], none) ∧
    get_container (.httpError st r) aid t = ([apiErrorMsg st r], none) := by
  refine ⟨?_, ?_, rfl, rfl⟩
  · simp only [get_container]
    rw [List.find?_eq_none.mpr (fun x hx => by simpa using hnm x hx)]
  · simp only [get_container]
    rw [find?_append_first _ pre c post (by simp [hc])
      (fun x hx => by simpa using hpre x hx)]

/-- Witness for C10: one non-matching listing and one listing whose second
container is the first (and only) name match. -/
theorem c10_witness :
    (⟨"01 - Astro - astro.com.my", "pc"⟩ : Container).name =
      "01 - Astro - astro.com.my" ∧
    (∀ x ∈ ([⟨"b", "pb"⟩] : List Container), x.name ≠ "01 - Astro - astro.com.my") ∧
    (∀ x ∈ ([⟨"a", "pa"⟩] : List Container), x.name ≠ "01 - Astro - astro.com.my") ∧
    (get_container (.ok [⟨"a", "pa"⟩]) "123287" "01 - Astro - astro.com.my" =
      ([], none) ∧
    get_container (.ok ([⟨"b", "pb"⟩] ++ ⟨"01 - Astro - astro.com.my", "pc"⟩ :: []))
        "123287" "01 - Astro - astro.com.my" =
      ([], some ⟨"01 - Astro - astro.com.my", "pc"⟩) ∧
    get_container (.typeError "E") "123287" "01 - Astro - astro.com.my" =
      ([queryErrorMsg "E"], none) ∧
    get_container (.httpError 403 "R") "123287" "01 - Astro - astro.com.my" =
      ([apiErrorMsg 403 "R"], none)) :=
  ⟨by decide, by decide, by decide,
    c10_get_container_first_match_or_none "123287" "01 - Astro - astro.com.my" "E" "R"
      403 [⟨"a", "pa"⟩] [⟨"b", "pb"⟩] [] ⟨"01 - Astro - astro.com.my", "pc"⟩
      (by decide) (by decide) (by decide)⟩

end Gadmin
